import Mathlib

/-!
Verification development for the openclaw-knobase webhook receiver
(src/bin/webhook.js): signature verification, event classification,
message formatting and best-effort delivery, shallowly embedded in Lean.

JavaScript values flowing through the webhook handler are modelled by
the `Json` type plus `Option Json` (with `none` playing the role of
`undefined`).  Platform primitives (node's HMAC, the locale renderer of
`Date.prototype.toLocaleString`, the outcome of `fetch`) are passed in
as explicit parameters, so every definition stays executable.
-/

inductive Json where
  | null
  | bool (b : Bool)
  | num (n : Int)
  | str (s : String)
  | arr (xs : List Json)
  | obj (fields : List (String × Json))

def objLookup : List (String × Json) → String → Option Json
  | [], _ => none
  | (k, v) :: t, key =>
    match objLookup t key with
    | some r => some r
    | none => if k = key then some v else none

def truthy : Option Json → Bool
  | none => false
  | some .null => false
  | some (.bool b) => b
  | some (.num n) => !(n == 0)
  | some (.str s) => !(s == "")
  | some (.arr _) => true
  | some (.obj _) => true

def truthyS : Option String → Bool
  | none => false
  | some s => !(s == "")

def stringifyStr (s : String) : String :=
  "\x22" ++
    ⟨s.data.foldr
      (fun c acc =>
        (match c with
         | '\x22' => ['\\', '\x22']
         | '\\' => ['\\', '\\']
         | '\n' => ['\\', 'n']
         | '\t' => ['\\', 't']
         | '\r' => ['\\', 'r']
         | c => [c]) ++ acc)
      []⟩ ++ "\x22"

mutual

/-- Compact serialization of a JSON value, as JSON.stringify renders it
(no added whitespace, object keys in insertion order). -/
def stringify : Json → String
  | .null => "null"
  | .bool true => "true"
  | .bool false => "false"
  | .num n => toString n
  | .str s => stringifyStr s
  | .arr xs => "[" ++ stringifyElems xs ++ "]"
  | .obj fs => "\x7b" ++ stringifyFields fs ++ "\x7d"

/-- Comma-separated serialization of the elements of a JSON array. -/
def stringifyElems : List Json → String
  | [] => ""
  | [x] => stringify x
  | x :: xs => stringify x ++ "," ++ stringifyElems xs

/-- Comma-separated serialization of the key/value pairs of a JSON
object. -/
def stringifyFields : List (String × Json) → String
  | [] => ""
  | [(k, v)] => stringifyStr k ++ ":" ++ stringify v
  | (k, v) :: fs => stringifyStr k ++ ":" ++ stringify v ++ "," ++ stringifyFields fs

end

mutual

/-- Coercion of a JavaScript value to a string, as template literal
interpolation performs it. -/
def jsToString : Option Json → String
  | none => "undefined"
  | some .null => "null"
  | some (.bool true) => "true"
  | some (.bool false) => "false"
  | some (.num n) => toString n
  | some (.str s) => s
  | some (.arr xs) => jsArrayToString xs
  | some (.obj _) => "[object Object]"

/-- Coercion of a JavaScript array to a string (Array.prototype.join with
a comma; null elements coerce to the empty string). -/
def jsArrayToString : List Json → String
  | [] => ""
  | [x] => jsElemToString x
  | x :: xs => jsElemToString x ++ "," ++ jsArrayToString xs

/-- Coercion of a single array element to a string. -/
def jsElemToString : Json → String
  | .null => ""
  | .bool true => "true"
  | .bool false => "false"
  | .num n => toString n
  | .str s => s
  | .arr xs => jsArrayToString xs
  | .obj _ => "[object Object]"

end

def jsGetJ (v : Json) (key : String) : Except Unit (Option Json) :=
  match v with
  | .null => .error ()
  | .obj fs => .ok (objLookup fs key)
  | _ => .ok none

def jsGet (v : Option Json) (key : String) : Except Unit (Option Json) :=
  match v with
  | none => .error ()
  | some j => jsGetJ j key

def replaceChar (c : Char) (r : List Char) : List Char → List Char
  | [] => []
  | x :: xs => (if x = c then r else [x]) ++ replaceChar c r xs

def escapeList (s : List Char) : List Char :=
  replaceChar '>' "&gt;".data
    (replaceChar '<' "&lt;".data
      (replaceChar '&' "&amp;".data s))

def escapeStr (s : String) : String :=
  ⟨escapeList s.data⟩

def escapeHtml (text : Option Json) : Except Unit String :=
  if truthy text = false then .ok ""
  else
    match text with
    | some (.str s) => .ok (escapeStr s)
    | _ => .error ()

def rtrim (s : List Char) : List Char :=
  (s.reverse.dropWhile Char.isWhitespace).reverse

def trimList (s : List Char) : List Char :=
  rtrim (s.dropWhile Char.isWhitespace)

def jsTrim (s : String) : String :=
  ⟨trimList s.data⟩

structure DateParts where
  year : Nat
  month : Nat
  day : Nat
  hour : Nat
  minute : Nat
  second : Nat
deriving DecidableEq, Repr

def twoDigits (a b : Char) : Nat :=
  (a.toNat - 48) * 10 + (b.toNat - 48)

def parseIso8601 (s : String) : Option DateParts :=
  match s.data with
  | [y1, y2, y3, y4, '-', m1, m2, '-', d1, d2, 'T', h1, h2, ':', mi1, mi2, ':', s1, s2, 'Z'] =>
    if ([y1, y2, y3, y4, m1, m2, d1, d2, h1, h2, mi1, mi2, s1, s2].all Char.isDigit) then
      let mo := twoDigits m1 m2
      let da := twoDigits d1 d2
      let ho := twoDigits h1 h2
      let mi := twoDigits mi1 mi2
      let se := twoDigits s1 s2
      if 1 ≤ mo && mo ≤ 12 && 1 ≤ da && da ≤ 31 && ho ≤ 23 && mi ≤ 59 && se ≤ 59 then
        some ⟨(twoDigits y1 y2) * 100 + twoDigits y3 y4, mo, da, ho, mi, se⟩
      else none
    else none
  | [y1, y2, y3, y4, '-', m1, m2, '-', d1, d2] =>
    if ([y1, y2, y3, y4, m1, m2, d1, d2].all Char.isDigit) then
      let mo := twoDigits m1 m2
      let da := twoDigits d1 d2
      if 1 ≤ mo && mo ≤ 12 && 1 ≤ da && da ≤ 31 then
        some ⟨(twoDigits y1 y2) * 100 + twoDigits y3 y4, mo, da, 0, 0, 0⟩
      else none
    else none
  | _ => none

def jsDateToLocaleString (render : DateParts → String) (renderEpoch : Int → String) (v : Option Json) : String :=
  match v with
  | some (.str s) =>
    match parseIso8601 s with
    | some p => render p
    | none => "Invalid Date"
  | some (.num n) => renderEpoch n
  | some .null => renderEpoch 0
  | some (.bool true) => renderEpoch 1
  | some (.bool false) => renderEpoch 0
  | _ => "Invalid Date"

structure DateRender where
  parts : DateParts → String
  epoch : Int → String

def timingSafeEqualB (a b : String) : Except Unit Bool :=
  if a.utf8ByteSize = b.utf8ByteSize then .ok (a == b) else .error ()

def verifySignature (hmac : String → String → String) (payload : Json)
    (signature secret : Option String) : Bool :=
  if !(truthyS signature) || !(truthyS secret) then true
  else
    let expected := hmac (secret.getD "") (stringify payload)
    match timingSafeEqualB (signature.getD "") expected with
    | .ok b => b
    | .error _ => false

def verifySignatureRaw (hmac : String → String → String) (rawBody : String)
    (signature secret : Option String) : Bool :=
  if !(truthyS signature) || !(truthyS secret) then true
  else
    match timingSafeEqualB (signature.getD "") (hmac (secret.getD "") rawBody) with
    | .ok b => b
    | .error _ => false

structure Config where
  AGENT_ID : Option String
  KNOBASE_WEBHOOK_SECRET : Option String
  TELEGRAM_BOT_TOKEN : Option String
  TELEGRAM_CHAT_ID : Option String

structure NetCall where
  url : String
  body : String
deriving DecidableEq, Repr

def sendTelegram (cfg : Config) (fetchOutcome : Except String Bool) (message : String) : List NetCall :=
  if !(truthyS cfg.TELEGRAM_BOT_TOKEN) || !(truthyS cfg.TELEGRAM_CHAT_ID) then []
  else
    [{ url := "https://api.telegram.org/bot" ++ cfg.TELEGRAM_BOT_TOKEN.getD "" ++ "/sendMessage",
       body := stringify (.obj
         [("chat_id", .str (cfg.TELEGRAM_CHAT_ID.getD "")),
          ("text", .str message),
          ("parse_mode", .str "HTML"),
          ("disable_web_page_preview", .bool false)]) }]

inductive EventKind where
  | mention
  | notification
  | system
  | unknown
deriving DecidableEq, Repr

def classify : Option Json → EventKind
  | some (.str "mention") => .mention
  | some (.str "notification") => .notification
  | some (.str "system") => .system
  | _ => .unknown

def formatMention (loc : DateRender) (data : Option Json) : Except Unit String := do
  let user ← jsGet data "user"
  let userE ← escapeHtml user
  let channel ← jsGet data "channel"
  let channelE ← escapeHtml (if truthy channel then channel else some (.str "Unknown"))
  let ts ← jsGet data "timestamp"
  let timeS := jsDateToLocaleString loc.parts loc.epoch ts
  let msg ← jsGet data "message"
  let msgE ← escapeHtml msg
  let ctx ← jsGet data "context"
  let ctxPart ←
    if truthy ctx then do
      let e ← escapeHtml ctx
      pure ("<b>Context:</b> " ++ e ++ "\n")
    else pure ""
  let url ← jsGet data "url"
  let urlPart :=
    if truthy url then "<a href=\x22" ++ jsToString url ++ "\x22>🔗 Open in Knobase</a>"
    else ""
  pure (jsTrim ("\n🎯 <b>@claw Mention in Knobase</b>\n\n<b>From:</b> " ++ userE ++
    "\n<b>Channel:</b> " ++ channelE ++
    "\n<b>Time:</b> " ++ timeS ++
    "\n\n<b>Message:</b>\n" ++ msgE ++
    "\n\n" ++ ctxPart ++ "\n" ++ urlPart ++ "\n  "))

def formatNotification (loc : DateRender) (data : Option Json) : Except Unit String := do
  let priority ← jsGet data "priority"
  let emoji :=
    match priority with
    | some (.str "high") => "🔴"
    | some (.str "low") => "⚪"
    | _ => "🔵"
  let title ← jsGet data "title"
  let titleE ← escapeHtml (if truthy title then title else some (.str "Notification"))
  let msg ← jsGet data "message"
  let msgE ← escapeHtml msg
  let ts ← jsGet data "timestamp"
  pure (jsTrim ("\n" ++ emoji ++ " <b>" ++ titleE ++ "</b>\n\n" ++ msgE ++
    "\n\n<i>" ++ jsDateToLocaleString loc.parts loc.epoch ts ++ "</i>\n  "))

structure Request where
  body : Json
  signature : Option String

structure HttpResponse where
  status : Nat
  body : String
deriving DecidableEq, Repr

def resp200 : HttpResponse :=
  { status := 200, body := stringify (.obj [("success", .bool true)]) }

def resp401 : HttpResponse :=
  { status := 401, body := stringify (.obj [("error", .str "Invalid signature")]) }

def resp500 : HttpResponse :=
  { status := 500, body := stringify (.obj [("error", .str "Internal error")]) }

def processEvent (loc : DateRender) (cfg : Config) (fetchOutcome : Except String Bool)
    (body : Json) : Except Unit (List NetCall) := do
  let event ← jsGetJ body "event"
  let data ← jsGetJ body "data"
  match classify event with
  | .mention => do
    let m ← formatMention loc data
    pure (sendTelegram cfg fetchOutcome m)
  | .notification => do
    let m ← formatNotification loc data
    pure (sendTelegram cfg fetchOutcome m)
  | .system => do
    let _ ← jsGet data "event"
    pure []
  | .unknown => pure []

def handleWebhook (hmac : String → String → String) (loc : DateRender) (cfg : Config)
    (fetchOutcome : Except String Bool) (req : Request) : HttpResponse × List NetCall :=
  if verifySignature hmac req.body req.signature cfg.KNOBASE_WEBHOOK_SECRET = false then
    (resp401, [])
  else
    match processEvent loc cfg fetchOutcome req.body with
    | .ok calls => (resp200, calls)
    | .error _ => (resp500, [])

def skipWs : List Char → List Char
  | [] => []
  | c :: t => if c = ' ' || c = '\t' || c = '\n' || c = '\r' then skipWs t else c :: t

def parseStringBody : List Char → Option (List Char × List Char)
  | [] => none
  | '\x22' :: t => some ([], t)
  | '\\' :: e :: t =>
    (match e with
     | '\x22' => some '\x22'
     | '\\' => some '\\'
     | '/' => some '/'
     | 'n' => some '\n'
     | 't' => some '\t'
     | 'r' => some '\r'
     | 'b' => some (Char.ofNat 8)
     | 'f' => some (Char.ofNat 12)
     | _ => none).bind
      (fun c => (parseStringBody t).map (fun (p : List Char × List Char) => (c :: p.1, p.2)))
  | ['\\'] => none
  | c :: t => (parseStringBody t).map (fun p => (c :: p.1, p.2))

def takeDigits : List Char → (List Char × List Char)
  | [] => ([], [])
  | c :: t =>
    if c.isDigit then
      let p := takeDigits t
      (c :: p.1, p.2)
    else ([], c :: t)

def digitsToNat (ds : List Char) : Nat :=
  ds.foldl (fun a c => a * 10 + (c.toNat - 48)) 0

def parseIntLit : List Char → Option (Int × List Char)
  | '-' :: r =>
    let p := takeDigits r
    if p.1 = [] then none
    else
      match p.2 with
      | '.' :: _ => none
      | 'e' :: _ => none
      | 'E' :: _ => none
      | _ => some (-(digitsToNat p.1 : Int), p.2)
  | s =>
    let p := takeDigits s
    if p.1 = [] then none
    else
      match p.2 with
      | '.' :: _ => none
      | 'e' :: _ => none
      | 'E' :: _ => none
      | _ => some ((digitsToNat p.1 : Int), p.2)

def parseMembersAux (pv : List Char → Option (Json × List Char)) :
    Nat → List Char → Option (List (String × Json) × List Char)
  | 0, _ => none
  | n + 1, s =>
    match skipWs s with
    | '\x22' :: r =>
      match parseStringBody r with
      | some (k, r2) =>
        match skipWs r2 with
        | ':' :: r3 =>
          match pv r3 with
          | some (v, r4) =>
            match skipWs r4 with
            | ',' :: r5 =>
              match parseMembersAux pv n r5 with
              | some (fs, r6) => some ((⟨k⟩, v) :: fs, r6)
              | none => none
            | '\x7d' :: r5 => some ([(⟨k⟩, v)], r5)
            | _ => none
          | none => none
        | _ => none
      | none => none
    | _ => none

def parseElemsAux (pv : List Char → Option (Json × List Char)) :
    Nat → List Char → Option (List Json × List Char)
  | 0, _ => none
  | n + 1, s =>
    match pv s with
    | some (v, r) =>
      match skipWs r with
      | ',' :: r2 =>
        match parseElemsAux pv n r2 with
        | some (xs, r3) => some (v :: xs, r3)
        | none => none
      | ']' :: r2 => some ([v], r2)
      | _ => none
    | none => none

def parseVal : Nat → List Char → Option (Json × List Char)
  | 0, _ => none
  | n + 1, s =>
    match skipWs s with
    | 'n' :: 'u' :: 'l' :: 'l' :: r => some (.null, r)
    | 't' :: 'r' :: 'u' :: 'e' :: r => some (.bool true, r)
    | 'f' :: 'a' :: 'l' :: 's' :: 'e' :: r => some (.bool false, r)
    | '\x22' :: r => (parseStringBody r).map (fun p => (.str ⟨p.1⟩, p.2))
    | '\x7b' :: r =>
      (match skipWs r with
       | '\x7d' :: r2 => some (.obj [], r2)
       | r2 => (parseMembersAux (parseVal n) n r2).map (fun p => (.obj p.1, p.2)))
    | '[' :: r =>
      (match skipWs r with
       | ']' :: r2 => some (.arr [], r2)
       | r2 => (parseElemsAux (parseVal n) n r2).map (fun p => (.arr p.1, p.2)))
    | s2 => (parseIntLit s2).map (fun p => (.num p.1, p.2))

def parseJson (s : String) : Option Json :=
  match parseVal (s.length + 1) s.data with
  | some (v, r) => if skipWs r = [] then some v else none
  | none => none

def hmacTest (key msg : String) : String :=
  key ++ ":" ++ msg

def renderTest : DateRender where
  parts := fun p =>
    toString p.year ++ "-" ++ toString p.month ++ "-" ++ toString p.day ++ " " ++
      toString p.hour ++ ":" ++ toString p.minute ++ ":" ++ toString p.second
  epoch := fun n => "epoch " ++ toString n

def listContains : List Char → List Char → Bool
  | needle, [] => needle.isEmpty
  | needle, c :: t => needle.isPrefixOf (c :: t) || listContains needle t

def rawBodyC1 : String := "\x7b\x22event\x22: \x22mention\x22\x7d"

def payloadC1 : Json := Json.obj [("event", Json.str "mention")]

def escCharSpec (c : Char) : List Char :=
  if c = '&' then "&amp;".data
  else if c = '<' then "&lt;".data
  else if c = '>' then "&gt;".data
  else [c]

def escapeSpec : List Char → List Char
  | [] => []
  | c :: t => escCharSpec c ++ escapeSpec t

def cfgNoCreds : Config :=
  { AGENT_ID := some "agent", KNOBASE_WEBHOOK_SECRET := none,
    TELEGRAM_BOT_TOKEN := none, TELEGRAM_CHAT_ID := none }

def exceptOk {e a : Type} : Except e a → Bool
  | .ok _ => true
  | .error _ => false

def cfgSecret : Config :=
  { AGENT_ID := some "agent", KNOBASE_WEBHOOK_SECRET := some "k",
    TELEGRAM_BOT_TOKEN := none, TELEGRAM_CHAT_ID := none }

def reqBadSig : Request :=
  { body := .obj [("event", .str "mention")], signature := some "bad" }

def reqUnknownKind : Request :=
  { body := .obj [("event", .str "unknown_future_kind")], signature := none }

def mentionBadTsData : Option Json :=
  some (.obj [("user", .str "alice"), ("channel", .str "general"),
    ("timestamp", .str "not-a-timestamp"), ("message", .str "hi")])

theorem verifySignature_skipped_when_absent (hmac : String → String → String)
    (payload : Json) (signature secret : Option String)
    (h : secret = none ∨ signature = none) :
    verifySignature hmac payload signature secret = true := by
  unfold verifySignature
  rcases h with h | h <;> subst h <;> simp [truthyS]

theorem verifySignature_skipped_when_absent_witness :
    ((none : Option String) = none ∨ (some "deadbeef" : Option String) = none) ∧
    verifySignature hmacTest (Json.obj [("event", Json.str "mention")]) (some "deadbeef") none = true :=
  ⟨Or.inl rfl,
   verifySignature_skipped_when_absent hmacTest (Json.obj [("event", Json.str "mention")])
     (some "deadbeef") none (Or.inl rfl)⟩

theorem verifySignature_length_mismatch_false (hmac : String → String → String)
    (payload : Json) (sig sec : String)
    (hsig : sig ≠ "") (hsec : sec ≠ "")
    (hlen : sig.utf8ByteSize ≠ (hmac sec (stringify payload)).utf8ByteSize) :
    verifySignature hmac payload (some sig) (some sec) = false := by
  unfold verifySignature
  have h1 : truthyS (some sig) = true := by simp [truthyS, hsig]
  have h2 : truthyS (some sec) = true := by simp [truthyS, hsec]
  rw [h1, h2]
  simp [timingSafeEqualB, hlen]

theorem verifySignature_length_mismatch_false_witness :
    ("abc" ≠ "") ∧ ("k" ≠ "") ∧
    ("abc".utf8ByteSize ≠ (hmacTest "k" (stringify (Json.obj []))).utf8ByteSize) ∧
    verifySignature hmacTest (Json.obj []) (some "abc") (some "k") = false :=
  ⟨by decide, by decide, by decide,
   verifySignature_length_mismatch_false hmacTest (Json.obj []) "abc" "k"
     (by decide) (by decide) (by decide)⟩

theorem verifySignature_rejects_raw_byte_signature :
    parseJson rawBodyC1 = some payloadC1 ∧
    stringify payloadC1 ≠ rawBodyC1 ∧
    verifySignatureRaw hmacTest rawBodyC1 (some (hmacTest "k" rawBodyC1)) (some "k") = true ∧
    verifySignature hmacTest payloadC1 (some (hmacTest "k" rawBodyC1)) (some "k") = false :=
  ⟨by rfl, by decide, by rfl, by rfl⟩

theorem replaceChar_append (c : Char) (r : List Char) (a b : List Char) :
    replaceChar c r (a ++ b) = replaceChar c r a ++ replaceChar c r b := by
  induction a with
  | nil => simp [replaceChar]
  | cons x xs ih => simp [replaceChar, ih, List.append_assoc]

theorem escapeList_single_of_ne (x : Char) (h1 : x ≠ '&') (h2 : x ≠ '<') (h3 : x ≠ '>') :
    escapeList [x] = [x] := by
  simp [escapeList, replaceChar, h1, h2, h3]

theorem escapeHtml_policy_exact :
    (∀ s : List Char, escapeList s = escapeSpec s) ∧
    (escCharSpec '&' = "&amp;".data ∧ escCharSpec '<' = "&lt;".data ∧ escCharSpec '>' = "&gt;".data) ∧
    (∀ c : Char, c ≠ '&' → c ≠ '<' → c ≠ '>' → escapeList [c] = [c]) := by
  refine ⟨?_, ⟨by decide, by decide, by decide⟩, fun c h1 h2 h3 => escapeList_single_of_ne c h1 h2 h3⟩
  intro s
  induction s with
  | nil => rfl
  | cons x t ih =>
    have hx : escapeList (x :: t) = escapeList [x] ++ escapeList t := by
      unfold escapeList
      rw [show (x :: t : List Char) = [x] ++ t from rfl, replaceChar_append,
        replaceChar_append, replaceChar_append]
    rw [hx, ih]
    show _ = escCharSpec x ++ escapeSpec t
    congr 1
    by_cases h1 : x = '&'
    · subst h1; decide
    · by_cases h2 : x = '<'
      · subst h2; decide
      · by_cases h3 : x = '>'
        · subst h3; decide
        · rw [escapeList_single_of_ne x h1 h2 h3]; simp [escCharSpec, h1, h2, h3]

theorem escapeHtml_policy_exact_witness :
    (('\x22' ≠ '&') ∧ ('\x22' ≠ '<') ∧ ('\x22' ≠ '>')) ∧ escapeList ['\x22'] = ['\x22'] :=
  ⟨⟨by decide, by decide, by decide⟩,
   escapeHtml_policy_exact.2.2 '\x22' (by decide) (by decide) (by decide)⟩

theorem sendTelegram_skip_and_swallow :
    (∀ (cfg : Config) (fetch : Except String Bool) (m : String),
       cfg.TELEGRAM_BOT_TOKEN = none ∨ cfg.TELEGRAM_CHAT_ID = none →
       sendTelegram cfg fetch m = []) ∧
    (∀ (cfg : Config) (f1 f2 : Except String Bool) (m : String),
       sendTelegram cfg f1 m = sendTelegram cfg f2 m) := by
  constructor
  · intro cfg fetch m h
    unfold sendTelegram
    rcases h with h | h <;> rw [h] <;> simp [truthyS]
  · intro cfg f1 f2 m
    rfl

theorem sendTelegram_skip_and_swallow_witness :
    (cfgNoCreds.TELEGRAM_BOT_TOKEN = none ∨ cfgNoCreds.TELEGRAM_CHAT_ID = none) ∧
    sendTelegram cfgNoCreds (.error "network down") "hello" = [] :=
  ⟨Or.inl rfl,
   sendTelegram_skip_and_swallow.1 cfgNoCreds (.error "network down") "hello" (Or.inl rfl)⟩

theorem processEvent_ok_indep (loc : DateRender) (cfg : Config)
    (f1 f2 : Except String Bool) (b : Json) :
    exceptOk (processEvent loc cfg f1 b) = exceptOk (processEvent loc cfg f2 b) := by
  unfold processEvent
  cases hev : jsGetJ b "event" with
  | error e => simp [Bind.bind, Except.bind]
  | ok ev =>
    cases hd : jsGetJ b "data" with
    | error e => simp [Bind.bind, Except.bind]
    | ok d =>
      cases hc : classify ev with
      | mention =>
        cases hm : formatMention loc d <;>
          simp [Bind.bind, Except.bind, hc, hm, Pure.pure, Except.pure, exceptOk]
      | notification =>
        cases hm : formatNotification loc d <;>
          simp [Bind.bind, Except.bind, hc, hm, Pure.pure, Except.pure, exceptOk]
      | system =>
        cases hm : jsGet d "event" <;>
          simp [Bind.bind, Except.bind, hc, hm, Pure.pure, Except.pure, exceptOk]
      | unknown => simp [Bind.bind, Except.bind, hc, Pure.pure, Except.pure, exceptOk]

theorem handleWebhook_response_policy (hmac : String → String → String) (loc : DateRender)
    (cfg : Config) (f : Except String Bool) (req : Request) :
    (verifySignature hmac req.body req.signature cfg.KNOBASE_WEBHOOK_SECRET = false →
       handleWebhook hmac loc cfg f req = (resp401, [])) ∧
    (∀ calls : List NetCall,
       verifySignature hmac req.body req.signature cfg.KNOBASE_WEBHOOK_SECRET = true →
       processEvent loc cfg f req.body = .ok calls →
       handleWebhook hmac loc cfg f req = (resp200, calls)) ∧
    (verifySignature hmac req.body req.signature cfg.KNOBASE_WEBHOOK_SECRET = true →
       processEvent loc cfg f req.body = .error () →
       handleWebhook hmac loc cfg f req = (resp500, [])) ∧
    (∀ f2 : Except String Bool,
       (handleWebhook hmac loc cfg f req).1 = (handleWebhook hmac loc cfg f2 req).1) := by
  refine ⟨?_, ?_, ?_, ?_⟩
  · intro hv
    unfold handleWebhook
    rw [hv]
    simp
  · intro calls hv hp
    unfold handleWebhook
    rw [hv, hp]
    simp
  · intro hv hp
    unfold handleWebhook
    rw [hv, hp]
    simp
  · intro f2
    unfold handleWebhook
    by_cases hv : verifySignature hmac req.body req.signature cfg.KNOBASE_WEBHOOK_SECRET = false
    · rw [if_pos hv, if_pos hv]
    · rw [if_neg hv, if_neg hv]
      have hind := processEvent_ok_indep loc cfg f f2 req.body
      cases h1 : processEvent loc cfg f req.body with
      | ok c1 =>
        cases h2 : processEvent loc cfg f2 req.body with
        | ok c2 => rfl
        | error e2 => rw [h1, h2] at hind; simp [exceptOk] at hind
      | error e1 =>
        cases h2 : processEvent loc cfg f2 req.body with
        | ok c2 => rw [h1, h2] at hind; simp [exceptOk] at hind
        | error e2 => rfl

theorem handleWebhook_response_policy_witness :
    verifySignature hmacTest reqBadSig.body reqBadSig.signature cfgSecret.KNOBASE_WEBHOOK_SECRET = false ∧
    handleWebhook hmacTest renderTest cfgSecret (.ok true) reqBadSig = (resp401, []) :=
  ⟨by decide,
   (handleWebhook_response_policy hmacTest renderTest cfgSecret (.ok true) reqBadSig).1 (by decide)⟩

theorem classify_total_and_unknown_acknowledged :
    (∀ ev : Option Json,
       classify ev = .mention ∨ classify ev = .notification ∨
       classify ev = .system ∨ classify ev = .unknown) ∧
    (∀ s : String, s ≠ "mention" → s ≠ "notification" → s ≠ "system" →
       classify (some (.str s)) = .unknown) ∧
    (∀ (hmac : String → String → String) (loc : DateRender) (cfg : Config)
       (f : Except String Bool) (req : Request) (fs : List (String × Json)),
       req.body = .obj fs →
       classify (objLookup fs "event") = .unknown →
       verifySignature hmac req.body req.signature cfg.KNOBASE_WEBHOOK_SECRET = true →
       handleWebhook hmac loc cfg f req = (resp200, [])) := by
  refine ⟨?_, ?_, ?_⟩
  · intro ev
    cases hc : classify ev with
    | mention => exact Or.inl rfl
    | notification => exact Or.inr (Or.inl rfl)
    | system => exact Or.inr (Or.inr (Or.inl rfl))
    | unknown => exact Or.inr (Or.inr (Or.inr rfl))
  · intro s h1 h2 h3
    simp [classify, h1, h2, h3]
  · intro hmac loc cfg f req fs hb hc hv
    unfold handleWebhook
    rw [hv]
    simp only [Bool.true_eq_false, if_false]
    unfold processEvent
    rw [hb]
    simp [jsGetJ, Bind.bind, Except.bind, hc, Pure.pure, Except.pure]

theorem classify_total_and_unknown_acknowledged_witness :
    reqUnknownKind.body = Json.obj [("event", Json.str "unknown_future_kind")] ∧
    classify (objLookup [("event", Json.str "unknown_future_kind")] "event") = EventKind.unknown ∧
    verifySignature hmacTest reqUnknownKind.body reqUnknownKind.signature cfgNoCreds.KNOBASE_WEBHOOK_SECRET = true ∧
    handleWebhook hmacTest renderTest cfgNoCreds (.ok true) reqUnknownKind = (resp200, []) :=
  ⟨rfl, by decide, by decide,
   classify_total_and_unknown_acknowledged.2.2 hmacTest renderTest cfgNoCreds (.ok true)
     reqUnknownKind [("event", Json.str "unknown_future_kind")] rfl (by decide) (by decide)⟩

theorem format_pure_deterministic (loc : DateRender) (d1 d2 : Option Json) :
    ((jsGet d1 "user" = jsGet d2 "user") → (jsGet d1 "channel" = jsGet d2 "channel") →
     (jsGet d1 "timestamp" = jsGet d2 "timestamp") → (jsGet d1 "message" = jsGet d2 "message") →
     (jsGet d1 "context" = jsGet d2 "context") → (jsGet d1 "url" = jsGet d2 "url") →
     formatMention loc d1 = formatMention loc d2) ∧
    ((jsGet d1 "priority" = jsGet d2 "priority") → (jsGet d1 "title" = jsGet d2 "title") →
     (jsGet d1 "message" = jsGet d2 "message") → (jsGet d1 "timestamp" = jsGet d2 "timestamp") →
     formatNotification loc d1 = formatNotification loc d2) := by
  constructor
  · intro h1 h2 h3 h4 h5 h6
    unfold formatMention
    simp only [h1, h2, h3, h4, h5, h6]
  · intro h1 h2 h3 h4
    unfold formatNotification
    simp only [h1, h2, h3, h4]

theorem format_pure_deterministic_witness :
    (jsGet (some (Json.obj [("user", Json.str "alice")])) "user" =
      jsGet (some (Json.obj [("user", Json.str "alice")])) "user") ∧
    formatMention renderTest (some (Json.obj [("user", Json.str "alice")])) =
      formatMention renderTest (some (Json.obj [("user", Json.str "alice")])) :=
  ⟨rfl,
   (format_pure_deterministic renderTest _ _).1 rfl rfl rfl rfl rfl rfl⟩

theorem formatMention_raw_timestamp_not_rendered :
    formatMention renderTest mentionBadTsData =
      .ok "🎯 <b>@claw Mention in Knobase</b>\n\n<b>From:</b> alice\n<b>Channel:</b> general\n<b>Time:</b> Invalid Date\n\n<b>Message:</b>\nhi" ∧
    listContains "not-a-timestamp".data
      ("🎯 <b>@claw Mention in Knobase</b>\n\n<b>From:</b> alice\n<b>Channel:</b> general\n<b>Time:</b> Invalid Date\n\n<b>Message:</b>\nhi").data = false :=
  ⟨by rfl, by decide⟩

theorem format_unparsable_timestamp_invalid_date (loc : DateRender) (ts : String)
    (h : parseIso8601 ts = none) :
    jsDateToLocaleString loc.parts loc.epoch (some (.str ts)) = "Invalid Date" ∧
    formatMention loc (some (.obj [("user", .str "alice"), ("channel", .str "general"),
        ("timestamp", .str ts), ("message", .str "hi")])) =
      .ok "🎯 <b>@claw Mention in Knobase</b>\n\n<b>From:</b> alice\n<b>Channel:</b> general\n<b>Time:</b> Invalid Date\n\n<b>Message:</b>\nhi" ∧
    formatNotification loc (some (.obj [("title", .str "Build"), ("message", .str "done"),
        ("timestamp", .str ts)])) =
      .ok "🔵 <b>Build</b>\n\ndone\n\n<i>Invalid Date</i>" := by
  have hd : jsDateToLocaleString loc.parts loc.epoch (some (.str ts)) = "Invalid Date" := by
    show (match parseIso8601 ts with
      | some p => loc.parts p
      | none => "Invalid Date") = "Invalid Date"
    rw [h]
  refine ⟨hd, ?_, ?_⟩
  · rw [show formatMention loc (some (.obj [("user", .str "alice"), ("channel", .str "general"),
        ("timestamp", .str ts), ("message", .str "hi")])) =
      .ok (jsTrim ("\n🎯 <b>@claw Mention in Knobase</b>\n\n<b>From:</b> " ++ "alice" ++
        "\n<b>Channel:</b> " ++ "general" ++ "\n<b>Time:</b> " ++
        jsDateToLocaleString loc.parts loc.epoch (some (.str ts)) ++
        "\n\n<b>Message:</b>\n" ++ "hi" ++ "\n\n" ++ "" ++ "\n" ++ "" ++ "\n  ")) from rfl, hd]
    rfl
  · rw [show formatNotification loc (some (.obj [("title", .str "Build"), ("message", .str "done"),
        ("timestamp", .str ts)])) =
      .ok (jsTrim ("\n" ++ "🔵" ++ " <b>" ++ "Build" ++ "</b>\n\n" ++ "done" ++ "\n\n<i>" ++
        jsDateToLocaleString loc.parts loc.epoch (some (.str ts)) ++ "</i>\n  ")) from rfl, hd]
    rfl

theorem format_unparsable_timestamp_invalid_date_witness :
    parseIso8601 "not-a-timestamp" = none ∧
    jsDateToLocaleString renderTest.parts renderTest.epoch (some (.str "not-a-timestamp")) = "Invalid Date" :=
  ⟨by decide,
   (format_unparsable_timestamp_invalid_date renderTest "not-a-timestamp" (by decide)).1⟩

theorem dropWhile_append_of_ne_nil (p : Char → Bool) (a b : List Char)
    (h : a.dropWhile p ≠ []) : (a ++ b).dropWhile p = a.dropWhile p ++ b := by
  induction a with
  | nil => simp at h
  | cons x t ih =>
    by_cases hp : p x
    · rw [List.cons_append, List.dropWhile_cons_of_pos hp, List.dropWhile_cons_of_pos hp]
      rw [List.dropWhile_cons_of_pos hp] at h
      exact ih h
    · rw [List.cons_append, List.dropWhile_cons_of_neg hp, List.dropWhile_cons_of_neg hp,
        List.cons_append]

theorem rtrim_append (a b : List Char) (h : rtrim b ≠ []) :
    rtrim (a ++ b) = a ++ rtrim b := by
  unfold rtrim at h ⊢
  have hb : b.reverse.dropWhile Char.isWhitespace ≠ [] := by
    intro hnil
    rw [hnil] at h
    simp at h
  rw [List.reverse_append, dropWhile_append_of_ne_nil Char.isWhitespace _ _ hb,
    List.reverse_append, List.reverse_reverse]

theorem rtrim_append_ne (a b : List Char) (h : rtrim b ≠ []) :
    rtrim (a ++ b) ≠ [] := by
  rw [rtrim_append a b h]
  intro hh
  exact h (List.append_eq_nil.mp hh).2

theorem rtrim_foldr_ne (ss : List (List Char)) (b : List Char) (hb : rtrim b ≠ []) :
    rtrim (ss.foldr (· ++ ·) b) ≠ [] := by
  induction ss with
  | nil => exact hb
  | cons x t ih => simpa only [List.foldr_cons] using rtrim_append_ne x _ ih

theorem rtrim_chain (ss : List (List Char)) (b : List Char) (hb : rtrim b ≠ []) :
    rtrim (ss.foldr (· ++ ·) b) = ss.foldr (· ++ ·) (rtrim b) := by
  induction ss with
  | nil => rfl
  | cons x t ih =>
    simp only [List.foldr_cons]
    rw [rtrim_append x _ (rtrim_foldr_ne t b hb), ih]

theorem jsTrim_data (s : String) : (jsTrim s).data = trimList s.data := rfl

theorem formatMention_url_verbatim (loc : DateRender) (url : String) (hurl : url ≠ "") :
    formatMention loc (some (.obj [("user", .str "alice"), ("channel", .str "general"),
        ("timestamp", .str "2024-01-01T00:00:00Z"), ("message", .str "hi"), ("url", .str url)])) =
      .ok ("🎯 <b>@claw Mention in Knobase</b>\n\n<b>From:</b> alice\n<b>Channel:</b> general\n<b>Time:</b> "
        ++ loc.parts ⟨2024, 1, 1, 0, 0, 0⟩
        ++ "\n\n<b>Message:</b>\nhi\n\n\n<a href=\x22" ++ url ++ "\x22>🔗 Open in Knobase</a>") := by
  have htr : truthy (some (Json.str url)) = true := by simp [truthy, hurl]
  have h1 : formatMention loc (some (.obj [("user", .str "alice"), ("channel", .str "general"),
      ("timestamp", .str "2024-01-01T00:00:00Z"), ("message", .str "hi"), ("url", .str url)])) =
      .ok (jsTrim ("\n🎯 <b>@claw Mention in Knobase</b>\n\n<b>From:</b> " ++ "alice" ++
        "\n<b>Channel:</b> " ++ "general" ++ "\n<b>Time:</b> " ++ loc.parts ⟨2024, 1, 1, 0, 0, 0⟩ ++
        "\n\n<b>Message:</b>\n" ++ "hi" ++ "\n\n" ++ "" ++ "\n" ++
        (if truthy (some (Json.str url)) = true then
          "<a href=\x22" ++ jsToString (some (Json.str url)) ++ "\x22>🔗 Open in Knobase</a>"
         else "") ++ "\n  ")) := rfl
  have hjs : jsToString (some (Json.str url)) = url := rfl
  rw [h1, if_pos htr, hjs]
  refine congrArg Except.ok (String.ext ?_)
  rw [jsTrim_data]
  repeat rw [String.data_append]
  rw [show ("" : String).data = ([] : List Char) from rfl]
  repeat rw [List.append_assoc]
  rw [List.nil_append]
  rw [show ("\n🎯 <b>@claw Mention in Knobase</b>\n\n<b>From:</b> " : String).data =
      '\n' :: ('🎯' :: (" <b>@claw Mention in Knobase</b>\n\n<b>From:</b> " : String).data) from by decide]
  unfold trimList
  rw [List.cons_append, List.cons_append,
    List.dropWhile_cons_of_pos (show Char.isWhitespace '\n' = true by decide),
    List.dropWhile_cons_of_neg (show ¬ (Char.isWhitespace '🎯' = true) by decide)]
  rw [← List.singleton_append]
  have hch := rtrim_chain [['🎯'],
      (" <b>@claw Mention in Knobase</b>\n\n<b>From:</b> " : String).data,
      ("alice" : String).data,
      ("\n<b>Channel:</b> " : String).data,
      ("general" : String).data,
      ("\n<b>Time:</b> " : String).data,
      (loc.parts ⟨2024, 1, 1, 0, 0, 0⟩).data,
      ("\n\n<b>Message:</b>\n" : String).data,
      ("hi" : String).data,
      ("\n\n" : String).data,
      ("\n" : String).data,
      ("<a href=\x22" : String).data,
      url.data]
      (("\x22>🔗 Open in Knobase</a>" : String).data ++ ("\n  " : String).data)
      (by decide)
  repeat rw [List.foldr_cons] at hch
  repeat rw [List.foldr_nil] at hch
  rw [hch]
  rw [show rtrim (("\x22>🔗 Open in Knobase</a>" : String).data ++ ("\n  " : String).data) =
      ("\x22>🔗 Open in Knobase</a>" : String).data from by decide]
  rw [show ("🎯 <b>@claw Mention in Knobase</b>\n\n<b>From:</b> alice\n<b>Channel:</b> general\n<b>Time:</b> " : String).data =
      ['🎯'] ++ ((" <b>@claw Mention in Knobase</b>\n\n<b>From:</b> " : String).data ++
        (("alice" : String).data ++ (("\n<b>Channel:</b> " : String).data ++
          (("general" : String).data ++ ("\n<b>Time:</b> " : String).data)))) from by decide]
  rw [show ("\n\n<b>Message:</b>\nhi\n\n\n<a href=\x22" : String).data =
      ("\n\n<b>Message:</b>\n" : String).data ++ (("hi" : String).data ++
        (("\n\n" : String).data ++ (("\n" : String).data ++ ("<a href=\x22" : String).data))) from by decide]
  repeat rw [List.append_assoc]

theorem formatMention_url_verbatim_witness :
    ("https://kb.example/open?id=1&view=<all>&q=\x22x\x22" ≠ "") ∧
    formatMention renderTest (some (.obj [("user", .str "alice"), ("channel", .str "general"),
        ("timestamp", .str "2024-01-01T00:00:00Z"), ("message", .str "hi"),
        ("url", .str "https://kb.example/open?id=1&view=<all>&q=\x22x\x22")])) =
      .ok ("🎯 <b>@claw Mention in Knobase</b>\n\n<b>From:</b> alice\n<b>Channel:</b> general\n<b>Time:</b> "
        ++ renderTest.parts ⟨2024, 1, 1, 0, 0, 0⟩
        ++ "\n\n<b>Message:</b>\nhi\n\n\n<a href=\x22"
        ++ "https://kb.example/open?id=1&view=<all>&q=\x22x\x22" ++ "\x22>🔗 Open in Knobase</a>") :=
  ⟨by decide,
   formatMention_url_verbatim renderTest "https://kb.example/open?id=1&view=<all>&q=\x22x\x22" (by decide)⟩
